import Mathlib

/-!
Verification of the behavioral-biometric fraud-detection core of the
Reimagine repository.  Each definition is a shallow embedding of a
function from the JavaScript/TypeScript source; JS numbers are modelled
as exact rationals, JS `null` as `Option.none`, and `Math.sqrt` (whose
exact float behaviour the proofs do not depend on) is passed in as an
explicit function parameter.
-/

namespace Reimagine

/-! ## Decision Policy and Risk Scorer (frontend/src/App.jsx, DataDebugPage) -/

/-- The four risk bands of `App.jsx` line 83
(`SAFE` / `MEDIUM` / `HIGH` / `CRITICAL`, a.k.a.
ALLOW / SOFT_CHALLENGE / HARD_CHALLENGE / BLOCK). -/
inductive RiskLevel where
  | SAFE
  | MEDIUM
  | HIGH
  | CRITICAL
  deriving DecidableEq, Repr

/-- `App.jsx:83`: `risk < 30 ? 'SAFE' : risk < 70 ? 'MEDIUM' : risk < 90 ? 'HIGH' : 'CRITICAL'`. -/
def riskLevel (s : ℚ) : RiskLevel :=
  if s < 30 then .SAFE
  else if s < 70 then .MEDIUM
  else if s < 90 then .HIGH
  else .CRITICAL

/-- The inputs of the additive risk scorer of `App.jsx` lines 39-60
(the `newData` object). -/
structure ScoreInput where
  mouseJitter : ℚ
  pathStraightness : ℚ
  hoverDelay : ℚ
  rageHover : ℚ
  clickDuration : ℚ
  scrollVelocity : ℚ
  scrollRhythm : ℚ
  mouseIdleTime : ℚ
  interKeyDelay : ℚ
  dwellTime : ℚ
  backspaceRatio : ℚ
  typingConsistency : ℚ
  copyPasteDetected : Bool
  ipDistance : ℚ
  vpnDetected : Bool
  timezoneMismatch : ℚ
  deviceChanges : ℚ
  latencyConsistency : ℚ
  tabSwitches : ℚ

/-- `App.jsx:63`. -/
def jitterPts (v : ℚ) : ℚ := if v > 45 then 6 else if v > 25 then 3 else 0
/-- `App.jsx:64`. -/
def straightnessPts (v : ℚ) : ℚ := if v > 4/5 then 5 else if v > 13/20 then 2 else 0
/-- `App.jsx:65`. -/
def hoverPts (v : ℚ) : ℚ := if v < 50 then 7 else if v < 150 then 3 else 0
/-- `App.jsx:66`. -/
def ragePts (v : ℚ) : ℚ := if v > 7 then 5 else if v > 3 then 2 else 0
/-- `App.jsx:67`. -/
def clickPts (v : ℚ) : ℚ := if v < 30 then 8 else if v < 70 then 4 else 0
/-- `App.jsx:68`. -/
def scrollVelPts (v : ℚ) : ℚ := if v > 4000 ∨ v < 200 then 6 else 0
/-- `App.jsx:69`. -/
def scrollRhythmPts (v : ℚ) : ℚ := if v > 9/10 then 6 else 0
/-- `App.jsx:70`. -/
def idlePts (v : ℚ) : ℚ := if v < 200 then 5 else 0
/-- `App.jsx:71`. -/
def interKeyPts (v : ℚ) : ℚ := if v < 40 then 7 else if v < 80 then 3 else 0
/-- `App.jsx:72`. -/
def dwellPts (v : ℚ) : ℚ := if v < 20 ∨ v > 250 then 5 else 0
/-- `App.jsx:73`. -/
def backspacePts (v : ℚ) : ℚ := if v = 0 ∨ v > 20 then 6 else 0
/-- `App.jsx:74`. -/
def consistencyPts (v : ℚ) : ℚ := if v < 1/10 then 6 else 0
/-- `App.jsx:75`. -/
def pastePts (b : Bool) : ℚ := if b then 10 else 0
/-- `App.jsx:76`. -/
def ipDistancePts (v : ℚ) : ℚ := if v > 3000 then 10 else if v > 100 then 4 else 0
/-- `App.jsx:77`. -/
def vpnPts (b : Bool) : ℚ := if b then 10 else 0
/-- `App.jsx:78`. -/
def timezonePts (v : ℚ) : ℚ := if v > 3 then 8 else 0
/-- `App.jsx:79`. -/
def devicePts (v : ℚ) : ℚ := if v > 5 then 10 else 0
/-- `App.jsx:80`. -/
def latencyPts (v : ℚ) : ℚ := if v > 19/20 then 5 else 0
/-- `App.jsx:81`. -/
def tabPts (v : ℚ) : ℚ := if v > 10 then 6 else 0

/-- The running total `risk` accumulated by `App.jsx` lines 62-81. -/
def computeRisk (d : ScoreInput) : ℚ :=
  jitterPts d.mouseJitter + straightnessPts d.pathStraightness +
  hoverPts d.hoverDelay + ragePts d.rageHover + clickPts d.clickDuration +
  scrollVelPts d.scrollVelocity + scrollRhythmPts d.scrollRhythm +
  idlePts d.mouseIdleTime + interKeyPts d.interKeyDelay +
  dwellPts d.dwellTime + backspacePts d.backspaceRatio +
  consistencyPts d.typingConsistency + pastePts d.copyPasteDetected +
  ipDistancePts d.ipDistance + vpnPts d.vpnDetected +
  timezonePts d.timezoneMismatch + devicePts d.deviceChanges +
  latencyPts d.latencyConsistency + tabPts d.tabSwitches

/-- `App.jsx:85`: `totalRiskScore: Math.min(100, risk)`. -/
def totalRiskScore (d : ScoreInput) : ℚ := min 100 (computeRisk d)

/-! ## Statistics helpers (frontend/src/components/SignUpPage.jsx, lines 7-28) -/

/-- `SignUpPage.jsx:7-10`: mean, `null` on an empty array. -/
def avg (arr : List ℚ) : Option ℚ :=
  if arr.length = 0 then none
  else some (arr.sum / arr.length)

/-- `SignUpPage.jsx:12-17`: population standard deviation, `null` on an
empty array; `sqrt` models `Math.sqrt`. -/
def std (sqrt : ℚ → ℚ) (arr : List ℚ) : Option ℚ :=
  if arr.length = 0 then none
  else
    let mean := (avg arr).getD 0
    let variance := (arr.map (fun x => (x - mean) ^ 2)).sum / (arr.length : ℚ)
    some (sqrt variance)

/-- A `curvatureSamples` entry pushed by `handleMouseMove`
(`SignUpPage.jsx:370-373`): `actual` is the Euclidean segment length,
`straight` the Manhattan length `|dx| + |dy|`. -/
structure CurvSample where
  actual : ℚ
  straight : ℚ
  deriving DecidableEq, Repr

/-- `SignUpPage.jsx:19-23`: mean of per-sample `actual / max(straight, 1)`,
`null` on an empty sample list. -/
def curvatureRatio (curvatureSamples : List CurvSample) : Option ℚ :=
  if curvatureSamples.length = 0 then none
  else avg (curvatureSamples.map (fun c => c.actual / max c.straight 1))

/-- `SignUpPage.jsx:25-28`: keystrokes per minute with the duration
clamped below by 0.01 minutes. -/
def typingSpeed (totalKeystrokes : ℕ) (durationMs : ℚ) : ℚ :=
  totalKeystrokes / max (durationMs / 60000) (1 / 100)

/-! ## Event capture state (SignUpPage.jsx `trackingState` and listeners) -/

/-- JavaScript truthiness of a number-or-null value (`null` and `0` are
falsy); used where the source tests a nullable numeric field directly,
e.g. `if (!state.firstInteractionTime)`. -/
def truthy : Option ℚ → Bool
  | none => false
  | some q => q ≠ 0

/-- A mouse position, as stored in `lastMousePos`. -/
structure Pos where
  x : ℚ
  y : ℚ
  deriving DecidableEq, Repr

/-- The mutable `trackingState.current` of `SignUpPage.jsx:80-107`
(interaction part; static device fields are carried separately). -/
structure TrackingState where
  keyDownTimes : List (String × ℚ)
  dwellTimes : List ℚ
  flightTimes : List ℚ
  lastKeyDownTime : Option ℚ
  backspaceCount : ℕ
  totalKeystrokes : ℕ
  copyPasteUsed : Bool
  lastMousePos : Option Pos
  lastMouseTime : Option ℚ
  totalMouseDistance : ℚ
  microCorrections : ℕ
  mouseVelocities : List ℚ
  curvatureSamples : List CurvSample
  lastScrollTime : Option ℚ
  lastScrollY : ℚ
  scrollVelocities : List ℚ
  firstInteractionTime : Option ℚ
  lastEventTime : ℚ
  idleTimeTotal : ℚ
  deriving Repr

/-- The state after `resetTrackingState` (`SignUpPage.jsx:304-326`),
equally the initial state; `t` is the current `performance.now()`
written into `lastEventTime`, and `scrollY0` the current `window.scrollY`. -/
def initialTrackingState (t scrollY0 : ℚ) : TrackingState where
  keyDownTimes := []
  dwellTimes := []
  flightTimes := []
  lastKeyDownTime := none
  backspaceCount := 0
  totalKeystrokes := 0
  copyPasteUsed := false
  lastMousePos := none
  lastMouseTime := none
  totalMouseDistance := 0
  microCorrections := 0
  mouseVelocities := []
  curvatureSamples := []
  lastScrollTime := none
  lastScrollY := scrollY0
  scrollVelocities := []
  firstInteractionTime := none
  lastEventTime := t
  idleTimeTotal := 0

/-- One captured interaction event; each constructor carries the
`performance.now()` value observed by its handler. -/
inductive Event where
  | keyDown (key : String) (t : ℚ)
  | keyUp (key : String) (t : ℚ)
  | paste
  | copy
  | mouseMove (x y t : ℚ)
  | scroll (scrollY t : ℚ)
  deriving Repr

/-- Association-list update mirroring `state.keyDownTimes[e.key] = now`. -/
def assocSet (m : List (String × ℚ)) (k : String) (v : ℚ) : List (String × ℚ) :=
  (k, v) :: m.filter (fun p => p.1 ≠ k)

/-- Association-list removal mirroring `delete state.keyDownTimes[e.key]`. -/
def assocDel (m : List (String × ℚ)) (k : String) : List (String × ℚ) :=
  m.filter (fun p => p.1 ≠ k)

/-- Association-list lookup mirroring `state.keyDownTimes[e.key]`. -/
def assocGet (m : List (String × ℚ)) (k : String) : Option ℚ :=
  (m.find? (fun p => p.1 = k)).map Prod.snd

/-- `handleKeyDown` (`SignUpPage.jsx:332-342`). -/
def handleKeyDown (st : TrackingState) (key : String) (t : ℚ) : TrackingState :=
  let st := if truthy st.firstInteractionTime then st
            else { st with firstInteractionTime := some t }
  { st with
    totalKeystrokes := st.totalKeystrokes + 1
    backspaceCount := if key = "Backspace" then st.backspaceCount + 1 else st.backspaceCount
    keyDownTimes := assocSet st.keyDownTimes key t
    flightTimes := match st.lastKeyDownTime with
      | some prev => st.flightTimes ++ [t - prev]
      | none => st.flightTimes
    lastKeyDownTime := some t
    lastEventTime := t }

/-- `handleKeyUp` (`SignUpPage.jsx:344-351`); note the truthiness test
`if (downTime)` on the stored key-down timestamp. -/
def handleKeyUp (st : TrackingState) (key : String) (t : ℚ) : TrackingState :=
  let downTime := assocGet st.keyDownTimes key
  let st := if truthy downTime then
      { st with
        dwellTimes := st.dwellTimes ++ [t - downTime.getD 0]
        keyDownTimes := assocDel st.keyDownTimes key }
    else st
  { st with lastEventTime := t }

/-- `handlePaste` / `handleCopy` (`SignUpPage.jsx:353-354`): only the
flag is set; `lastEventTime` is not touched. -/
def handlePasteCopy (st : TrackingState) : TrackingState :=
  { st with copyPasteUsed := true }

/-- `handleMouseMove` (`SignUpPage.jsx:356-378`); `sqrt` models
`Math.sqrt` in `dist = Math.sqrt(dx*dx + dy*dy)`. -/
def handleMouseMove (sqrt : ℚ → ℚ) (st : TrackingState) (x y t : ℚ) : TrackingState :=
  let st := if truthy st.firstInteractionTime then st
            else { st with firstInteractionTime := some t }
  let st := match st.lastMousePos with
    | some p =>
        let dx := x - p.x
        let dy := y - p.y
        let dt := t - st.lastMouseTime.getD 0
        let dist := sqrt (dx * dx + dy * dy)
        { st with
          totalMouseDistance := st.totalMouseDistance + dist
          microCorrections := if dist < 2 then st.microCorrections + 1
                              else st.microCorrections
          mouseVelocities := if dt > 0 then st.mouseVelocities ++ [dist / dt]
                             else st.mouseVelocities
          curvatureSamples := st.curvatureSamples ++ [CurvSample.mk dist (|dx| + |dy|)] }
    | none => st
  { st with
    lastMousePos := some ⟨x, y⟩
    lastMouseTime := some t
    lastEventTime := t }

/-- `handleScroll` (`SignUpPage.jsx:380-391`); `state.lastScrollTime || now`
falls back to `now` when `lastScrollTime` is null or 0. -/
def handleScroll (st : TrackingState) (scrollY t : ℚ) : TrackingState :=
  let dy := |scrollY - st.lastScrollY|
  let base := if truthy st.lastScrollTime then st.lastScrollTime.getD 0 else t
  let dt := t - base
  { st with
    scrollVelocities := if dt > 0 then st.scrollVelocities ++ [dy / dt]
                        else st.scrollVelocities
    lastScrollTime := some t
    lastScrollY := scrollY
    lastEventTime := t }

/-- Dispatch one event to its handler, as the registered DOM listeners
do (`SignUpPage.jsx:401-406`); `detectIdle` (`SignUpPage.jsx:393-399`)
is defined in the source but never registered, so no case runs it. -/
def stepEvent (sqrt : ℚ → ℚ) (st : TrackingState) : Event → TrackingState
  | .keyDown key t => handleKeyDown st key t
  | .keyUp key t => handleKeyUp st key t
  | .paste => handlePasteCopy st
  | .copy => handlePasteCopy st
  | .mouseMove x y t => handleMouseMove sqrt st x y t
  | .scroll sY t => handleScroll st sY t

/-- Process a whole session's event stream in arrival order. -/
def processEvents (sqrt : ℚ → ℚ) (st : TrackingState) (evs : List Event) : TrackingState :=
  evs.foldl (stepEvent sqrt) st

/-- `detectIdle` (`SignUpPage.jsx:393-399`), as written in the source:
adds the gap since `lastEventTime` when it exceeds 2000 ms.  The
function is never attached to any listener or timer, so it is
reproduced here only to document the intended semantics. -/
def detectIdle (st : TrackingState) (now : ℚ) : TrackingState :=
  let st := if now - st.lastEventTime > 2000 then
      { st with idleTimeTotal := st.idleTimeTotal + (now - st.lastEventTime) }
    else st
  { st with lastEventTime := now }

/-! ## Feature-vector assembly (SignUpPage.jsx `collectMHacksData`, lines 136-180) -/

/-- Environment-supplied device attributes consumed by
`collectMHacksData`; the fingerprint hash is the SHA-256 digest
`generateFingerprint` derives deterministically from the device, so it
is carried as a pre-computed opaque string. -/
structure DeviceInfo where
  userAgent : String
  fingerprintHash : String
  deviceBrowserId : String
  deviceOs : String
  screenResolution : String
  timezone : String
  gpu : String
  deriving Repr

/-- The behavioral record built by `collectMHacksData`
(`SignUpPage.jsx:142-179`).  Fields that can hold JSON `null` are
`Option`-typed. -/
structure MHacksRecord where
  session_id : String
  user_agent : String
  dwell_time_mean_ms : Option ℚ
  dwell_time_std_ms : Option ℚ
  flight_time_mean_ms : Option ℚ
  typing_speed_cpm : Option ℚ
  backspace_rate : Option ℚ
  copy_paste_used : Bool
  avg_velocity_px_ms : Option ℚ
  path_curvature_ratio : Option ℚ
  click_precision_px : Option ℚ
  micro_corrections_per_movement : ℕ
  total_distance_px : ℚ
  mouse_idle_time_ms : ℚ
  scroll_velocity_px_s : Option ℚ
  fingerprint_hash : String
  device_browser_id : String
  device_os : String
  screen_resolution : String
  timezone : String
  gpu : String
  form_completion_time_ms : ℚ
  time_to_first_interaction_ms : Option ℚ
  idle_time_percentage : ℚ
  deriving Repr

/-- `collectMHacksData` (`SignUpPage.jsx:136-180`) as a pure function of
the tracking state, the device attributes, the current
`performance.now()` value `now`, the recorded `pageLoadTime`, and the
freshly drawn `crypto.randomUUID()` value `uuid`.  In
`scroll_velocity_px_s` the source computes `avg(...) * 1000` where
`avg` may return `null`; JavaScript coerces `null * 1000` to `0`, hence
the `getD 0`. -/
def collectMHacksData (sqrt : ℚ → ℚ) (st : TrackingState) (dev : DeviceInfo)
    (now pageLoadTime : ℚ) (uuid : String) : MHacksRecord :=
  let duration := now - pageLoadTime
  { session_id := uuid
    user_agent := dev.userAgent
    dwell_time_mean_ms := avg st.dwellTimes
    dwell_time_std_ms := std sqrt st.dwellTimes
    flight_time_mean_ms := avg st.flightTimes
    typing_speed_cpm := some (typingSpeed st.totalKeystrokes duration)
    backspace_rate := some ((st.backspaceCount : ℚ) / max (st.totalKeystrokes : ℚ) 1)
    copy_paste_used := st.copyPasteUsed
    avg_velocity_px_ms := avg st.mouseVelocities
    path_curvature_ratio := curvatureRatio st.curvatureSamples
    click_precision_px := none
    micro_corrections_per_movement := st.microCorrections
    total_distance_px := st.totalMouseDistance
    mouse_idle_time_ms := st.idleTimeTotal
    scroll_velocity_px_s := some ((avg st.scrollVelocities).getD 0 * 1000)
    fingerprint_hash := dev.fingerprintHash
    device_browser_id := dev.deviceBrowserId
    device_os := dev.deviceOs
    screen_resolution := dev.screenResolution
    timezone := dev.timezone
    gpu := dev.gpu
    form_completion_time_ms := duration
    time_to_first_interaction_ms :=
      if truthy st.firstInteractionTime then
        some (st.firstInteractionTime.getD 0 - pageLoadTime)
      else none
    idle_time_percentage := st.idleTimeTotal / duration }

/-! ## Mouse-path metrics of `analyzeBehavior`
(frontend/src/hooks/useBehavioralTracking.js, lines 111-138) -/

/-- Squared Euclidean distance between two mouse samples. -/
def sqDist (p q : Pos) : ℚ := (q.x - p.x) * (q.x - p.x) + (q.y - p.y) * (q.y - p.y)

/-- The per-segment Euclidean distances of the loop at
`useBehavioralTracking.js:116-120`. -/
def segDists (sqrt : ℚ → ℚ) : List Pos → List ℚ
  | [] => []
  | [_] => []
  | p :: q :: rest => sqrt (sqDist p q) :: segDists sqrt (q :: rest)

/-- `totalDistance` accumulated by that loop. -/
def totalDistance (sqrt : ℚ → ℚ) (moves : List Pos) : ℚ :=
  (segDists sqrt moves).sum

/-- `straightLineDistance` (`useBehavioralTracking.js:121-125`): distance
between the first and last samples, left at 0 unless
`mouseMovements.length > 1`. -/
def straightLineDistance (sqrt : ℚ → ℚ) : List Pos → ℚ
  | a :: b :: rest => sqrt (sqDist a ((b :: rest).getLastD b))
  | _ => 0

/-- `pathStraightness` (`useBehavioralTracking.js:138`):
`straightLineDistance > 0 ? straightLineDistance / totalDistance : 0`. -/
def pathStraightness (sqrt : ℚ → ℚ) (moves : List Pos) : ℚ :=
  let s := straightLineDistance sqrt moves
  if s > 0 then s / totalDistance sqrt moves else 0

/-! ## Capture buffer of the extension (src/unnamed/part_000, `BehavioralTracker`) -/

/-- A keystroke recorded by `BehavioralTracker.trackKeystroke`. -/
structure TrackedKeystroke where
  key : String
  timestamp : ℚ
  duration : ℚ
  fieldType : String
  deriving DecidableEq, Repr

/-- The mutable fields of the `BehavioralTracker` class
(`part_000:69-113`). -/
structure TrackerState where
  isTracking : Bool
  keystrokePattern : List TrackedKeystroke
  deriving Repr

/-- `startTracking` (`part_000:76-79`): unconditionally sets the flag
and resets the pattern buffer. -/
def startTracking (_s : TrackerState) : TrackerState :=
  { isTracking := true, keystrokePattern := [] }

/-- `stopTracking` (`part_000:81-83`). -/
def stopTracking (s : TrackerState) : TrackerState :=
  { s with isTracking := false }

/-- `trackKeystroke` (`part_000:85-96`): appends only while tracking. -/
def trackKeystroke (s : TrackerState) (k : TrackedKeystroke) : TrackerState :=
  if s.isTracking then { s with keystrokePattern := s.keystrokePattern ++ [k] }
  else s

/-! ## Baseline establishment (frontend/extension/popup/src/Onboarding.tsx) -/

/-- A keystroke of the onboarding typing test (`types.ts KeystrokeEvent`). -/
structure OnboardKeystroke where
  key : String
  timestamp : ℚ
  duration : ℚ
  deriving DecidableEq, Repr

/-- `BehavioralBaseline` (`types.ts`). -/
structure BehavioralBaseline where
  typingSpeed : ℚ
  rhythm : ℚ
  keystrokeCount : ℕ
  pattern : List OnboardKeystroke
  deriving Repr

/-- `Stats` (`types.ts`). -/
structure Stats where
  transactionsProtected : ℕ
  threatsBlocked : ℕ
  protectionActive : Bool
  deriving Repr

/-- The keys `saveBaseline` writes to `chrome.storage.local`
(`StorageData` in `types.ts`). -/
structure BaselineStorage where
  behavioralBaseline : Option BehavioralBaseline
  onboardingComplete : Bool
  userId : Option String
  stats : Option Stats
  deriving Repr

/-- Consecutive differences of the timestamp list, as built by the
`for` loop in `saveBaseline` (`Onboarding.tsx:51-54`). -/
def intervalsOf : List ℚ → List ℚ
  | [] => []
  | [_] => []
  | a :: b :: rest => (b - a) :: intervalsOf (b :: rest)

/-- `saveBaseline` (`Onboarding.tsx:47-81`) as a state transformer on
the stored data: with fewer than 2 recorded keystrokes it returns
immediately, leaving storage unchanged and not invoking `onComplete`
(the returned `Bool`); otherwise it writes the computed baseline, the
completion flag, a fresh user id (`'user_' + Date.now()`, passed in as
`uid`) and zeroed stats, and reports that `onComplete` ran. -/
def saveBaseline (sqrt : ℚ → ℚ) (keystrokePattern : List OnboardKeystroke)
    (uid : String) (store : BaselineStorage) : BaselineStorage × Bool :=
  if keystrokePattern.length < 2 then (store, false)
  else
    let timestamps := keystrokePattern.map (·.timestamp)
    let intervals := intervalsOf timestamps
    let avgSpeed := intervals.sum / (intervals.length : ℚ)
    let variance := (intervals.map (fun v => (v - avgSpeed) ^ 2)).sum / (intervals.length : ℚ)
    ({ behavioralBaseline := some
        { typingSpeed := avgSpeed
          rhythm := sqrt variance
          keystrokeCount := keystrokePattern.length
          pattern := keystrokePattern }
       onboardingComplete := true
       userId := some uid
       stats := some { transactionsProtected := 0, threatsBlocked := 0, protectionActive := true } },
     true)

/-! ## Concrete inputs used by witnesses and counterexamples -/

/-- A sample device record (all device attributes are opaque inputs). -/
def dev0 : DeviceInfo :=
  { userAgent := "ua", fingerprintHash := "fp", deviceBrowserId := "br"
    deviceOs := "os", screenResolution := "1920x1080", timezone := "tz", gpu := "gpu" }

/-- A scorer input with every monitored feature inside its
zero-contribution range except the paste and VPN flags. -/
def pasteVpnInput : ScoreInput :=
  { mouseJitter := 10, pathStraightness := 1/2, hoverDelay := 300, rageHover := 1
    clickDuration := 100, scrollVelocity := 1000, scrollRhythm := 1/2
    mouseIdleTime := 500, interKeyDelay := 150, dwellTime := 80
    backspaceRatio := 5, typingConsistency := 3/10, copyPasteDetected := true
    ipDistance := 50, vpnDetected := true, timezoneMismatch := 0
    deviceChanges := 0, latencyConsistency := 1/2, tabSwitches := 2 }

/-- A scorer input that triggers every rule, so the raw total (131)
exceeds 100. -/
def maxedInput : ScoreInput :=
  { mouseJitter := 50, pathStraightness := 9/10, hoverDelay := 10, rageHover := 8
    clickDuration := 10, scrollVelocity := 5000, scrollRhythm := 19/20
    mouseIdleTime := 100, interKeyDelay := 30, dwellTime := 300
    backspaceRatio := 0, typingConsistency := 1/20, copyPasteDetected := true
    ipDistance := 4000, vpnDetected := true, timezoneMismatch := 4
    deviceChanges := 6, latencyConsistency := 24/25, tabSwitches := 11 }

/-- A sample keystroke for the extension tracker. -/
def ks0 : TrackedKeystroke :=
  { key := "4", timestamp := 100, duration := 5, fieldType := "card" }

/-- Two sample onboarding keystrokes. -/
def ok1 : OnboardKeystroke := { key := "4", timestamp := 1000, duration := 3 }

/-- Second sample onboarding keystroke, 120 ms after `ok1`. -/
def ok2 : OnboardKeystroke := { key := "5", timestamp := 1120, duration := 4 }

/-- Empty extension storage. -/
def emptyStore : BaselineStorage :=
  { behavioralBaseline := none, onboardingComplete := false, userId := none, stats := none }

/-! ## Helper lemmas about the scorer -/

lemma jitterPts_nonneg (v : ℚ) : 0 ≤ jitterPts v := by
  unfold jitterPts; split_ifs <;> norm_num

lemma straightnessPts_nonneg (v : ℚ) : 0 ≤ straightnessPts v := by
  unfold straightnessPts; split_ifs <;> norm_num

lemma hoverPts_nonneg (v : ℚ) : 0 ≤ hoverPts v := by
  unfold hoverPts; split_ifs <;> norm_num

lemma ragePts_nonneg (v : ℚ) : 0 ≤ ragePts v := by
  unfold ragePts; split_ifs <;> norm_num

lemma clickPts_nonneg (v : ℚ) : 0 ≤ clickPts v := by
  unfold clickPts; split_ifs <;> norm_num

lemma scrollVelPts_nonneg (v : ℚ) : 0 ≤ scrollVelPts v := by
  unfold scrollVelPts; split_ifs <;> norm_num

lemma scrollRhythmPts_nonneg (v : ℚ) : 0 ≤ scrollRhythmPts v := by
  unfold scrollRhythmPts; split_ifs <;> norm_num

lemma idlePts_nonneg (v : ℚ) : 0 ≤ idlePts v := by
  unfold idlePts; split_ifs <;> norm_num

lemma interKeyPts_nonneg (v : ℚ) : 0 ≤ interKeyPts v := by
  unfold interKeyPts; split_ifs <;> norm_num

lemma dwellPts_nonneg (v : ℚ) : 0 ≤ dwellPts v := by
  unfold dwellPts; split_ifs <;> norm_num

lemma backspacePts_nonneg (v : ℚ) : 0 ≤ backspacePts v := by
  unfold backspacePts; split_ifs <;> norm_num

lemma consistencyPts_nonneg (v : ℚ) : 0 ≤ consistencyPts v := by
  unfold consistencyPts; split_ifs <;> norm_num

lemma pastePts_nonneg (b : Bool) : 0 ≤ pastePts b := by
  unfold pastePts; split_ifs <;> norm_num

lemma ipDistancePts_nonneg (v : ℚ) : 0 ≤ ipDistancePts v := by
  unfold ipDistancePts; split_ifs <;> norm_num

lemma vpnPts_nonneg (b : Bool) : 0 ≤ vpnPts b := by
  unfold vpnPts; split_ifs <;> norm_num

lemma timezonePts_nonneg (v : ℚ) : 0 ≤ timezonePts v := by
  unfold timezonePts; split_ifs <;> norm_num

lemma devicePts_nonneg (v : ℚ) : 0 ≤ devicePts v := by
  unfold devicePts; split_ifs <;> norm_num

lemma latencyPts_nonneg (v : ℚ) : 0 ≤ latencyPts v := by
  unfold latencyPts; split_ifs <;> norm_num

lemma tabPts_nonneg (v : ℚ) : 0 ≤ tabPts v := by
  unfold tabPts; split_ifs <;> norm_num

lemma computeRisk_nonneg (d : ScoreInput) : 0 ≤ computeRisk d := by
  unfold computeRisk
  have h1 := jitterPts_nonneg d.mouseJitter
  have h2 := straightnessPts_nonneg d.pathStraightness
  have h3 := hoverPts_nonneg d.hoverDelay
  have h4 := ragePts_nonneg d.rageHover
  have h5 := clickPts_nonneg d.clickDuration
  have h6 := scrollVelPts_nonneg d.scrollVelocity
  have h7 := scrollRhythmPts_nonneg d.scrollRhythm
  have h8 := idlePts_nonneg d.mouseIdleTime
  have h9 := interKeyPts_nonneg d.interKeyDelay
  have h10 := dwellPts_nonneg d.dwellTime
  have h11 := backspacePts_nonneg d.backspaceRatio
  have h12 := consistencyPts_nonneg d.typingConsistency
  have h13 := pastePts_nonneg d.copyPasteDetected
  have h14 := ipDistancePts_nonneg d.ipDistance
  have h15 := vpnPts_nonneg d.vpnDetected
  have h16 := timezonePts_nonneg d.timezoneMismatch
  have h17 := devicePts_nonneg d.deviceChanges
  have h18 := latencyPts_nonneg d.latencyConsistency
  have h19 := tabPts_nonneg d.tabSwitches
  linarith

lemma jitterPts_zero {v : ℚ} (h : v ≤ 25) : jitterPts v = 0 := by
  unfold jitterPts; rw [if_neg (by linarith), if_neg (by linarith)]

lemma straightnessPts_zero {v : ℚ} (h : v ≤ 13/20) : straightnessPts v = 0 := by
  unfold straightnessPts; rw [if_neg (by linarith), if_neg (by linarith)]

lemma hoverPts_zero {v : ℚ} (h : 150 ≤ v) : hoverPts v = 0 := by
  unfold hoverPts; rw [if_neg (by linarith), if_neg (by linarith)]

lemma ragePts_zero {v : ℚ} (h : v ≤ 3) : ragePts v = 0 := by
  unfold ragePts; rw [if_neg (by linarith), if_neg (by linarith)]

lemma clickPts_zero {v : ℚ} (h : 70 ≤ v) : clickPts v = 0 := by
  unfold clickPts; rw [if_neg (by linarith), if_neg (by linarith)]

lemma scrollVelPts_zero {v : ℚ} (h₁ : 200 ≤ v) (h₂ : v ≤ 4000) : scrollVelPts v = 0 := by
  unfold scrollVelPts
  rw [if_neg]
  rintro (h | h) <;> linarith

lemma scrollRhythmPts_zero {v : ℚ} (h : v ≤ 9/10) : scrollRhythmPts v = 0 := by
  unfold scrollRhythmPts; rw [if_neg (by linarith)]

lemma idlePts_zero {v : ℚ} (h : 200 ≤ v) : idlePts v = 0 := by
  unfold idlePts; rw [if_neg (by linarith)]

lemma interKeyPts_zero {v : ℚ} (h : 80 ≤ v) : interKeyPts v = 0 := by
  unfold interKeyPts; rw [if_neg (by linarith), if_neg (by linarith)]

lemma dwellPts_zero {v : ℚ} (h₁ : 20 ≤ v) (h₂ : v ≤ 250) : dwellPts v = 0 := by
  unfold dwellPts
  rw [if_neg]
  rintro (h | h) <;> linarith

lemma backspacePts_zero {v : ℚ} (h₁ : 0 < v) (h₂ : v ≤ 20) : backspacePts v = 0 := by
  unfold backspacePts
  rw [if_neg]
  rintro (h | h) <;> linarith

lemma consistencyPts_zero {v : ℚ} (h : 1/10 ≤ v) : consistencyPts v = 0 := by
  unfold consistencyPts; rw [if_neg (by linarith)]

lemma ipDistancePts_zero {v : ℚ} (h : v ≤ 100) : ipDistancePts v = 0 := by
  unfold ipDistancePts; rw [if_neg (by linarith), if_neg (by linarith)]

lemma timezonePts_zero {v : ℚ} (h : v ≤ 3) : timezonePts v = 0 := by
  unfold timezonePts; rw [if_neg (by linarith)]

lemma devicePts_zero {v : ℚ} (h : v ≤ 5) : devicePts v = 0 := by
  unfold devicePts; rw [if_neg (by linarith)]

lemma latencyPts_zero {v : ℚ} (h : v ≤ 19/20) : latencyPts v = 0 := by
  unfold latencyPts; rw [if_neg (by linarith)]

lemma tabPts_zero {v : ℚ} (h : v ≤ 10) : tabPts v = 0 := by
  unfold tabPts; rw [if_neg (by linarith)]

/-! ## Claim theorems -/

/-- C1: over every risk score `s` the Decision Policy of `App.jsx:83`
assigns exactly one of four bands with lower-inclusive boundaries:
SAFE/ALLOW iff `s < 30`, MEDIUM/SOFT_CHALLENGE iff `30 ≤ s < 70`,
HIGH/HARD_CHALLENGE iff `70 ≤ s < 90`, CRITICAL/BLOCK iff `90 ≤ s`; in
particular the boundary scores 30, 70 and 90 fall in the higher band,
and the mapping is a pure function of the score alone. -/
theorem riskLevel_band_characterization :
    (∀ s : ℚ,
      (riskLevel s = .SAFE ↔ s < 30) ∧
      (riskLevel s = .MEDIUM ↔ 30 ≤ s ∧ s < 70) ∧
      (riskLevel s = .HIGH ↔ 70 ≤ s ∧ s < 90) ∧
      (riskLevel s = .CRITICAL ↔ 90 ≤ s)) ∧
    riskLevel 30 = .MEDIUM ∧ riskLevel 70 = .HIGH ∧ riskLevel 90 = .CRITICAL := by
  refine ⟨fun s => ?_, by decide, by decide, by decide⟩
  unfold riskLevel
  split_ifs with h1 h2 h3 <;> push_neg at * <;>
    refine ⟨?_, ?_, ?_, ?_⟩ <;> constructor <;> intro h <;>
    first
      | rfl
      | linarith
      | (constructor <;> linarith)
      | (simp at h)

/-- C2: for every scorer input the raw additive total of `App.jsx:62-81`
is nonnegative, the returned `totalRiskScore` lies in `[0, 100]`, and a
total exceeding 100 is clamped to exactly 100 (`Math.min(100, risk)`);
since no rule subtracts points the total is never negative, so the
returned score is never negative. -/
theorem totalRiskScore_clamped (d : ScoreInput) :
    0 ≤ computeRisk d ∧ 0 ≤ totalRiskScore d ∧ totalRiskScore d ≤ 100 ∧
    (100 < computeRisk d → totalRiskScore d = 100) := by
  refine ⟨computeRisk_nonneg d, ?_, ?_, ?_⟩
  · exact le_min (by norm_num) (computeRisk_nonneg d)
  · exact min_le_left _ _
  · intro h
    exact min_eq_left (le_of_lt h)

/-- Witness for C2: `maxedInput` drives the raw total to 131 > 100 and
the clamped score is exactly 100. -/
theorem totalRiskScore_clamped_witness :
    100 < computeRisk maxedInput ∧ totalRiskScore maxedInput = 100 := by
  have h : computeRisk maxedInput = 131 := by
    norm_num [computeRisk, maxedInput, jitterPts, straightnessPts, hoverPts,
      ragePts, clickPts, scrollVelPts, scrollRhythmPts, idlePts, interKeyPts,
      dwellPts, backspacePts, consistencyPts, pastePts, ipDistancePts, vpnPts,
      timezonePts, devicePts, latencyPts, tabPts]
  exact ⟨by rw [h]; norm_num,
    (totalRiskScore_clamped maxedInput).2.2.2 (by rw [h]; norm_num)⟩

/-- Counterexample to C8 as stated: with one paste event, the VPN flag
true, and every other monitored feature in its zero-contribution range
(`pasteVpnInput`), the score is exactly 20, which does not reach the
SOFT_CHALLENGE band (`30 ≤ score` fails) — the decision stays SAFE. -/
theorem pasteVpnInput_score_twenty :
    totalRiskScore pasteVpnInput = 20 ∧ ¬ (30 ≤ totalRiskScore pasteVpnInput) ∧
    riskLevel (totalRiskScore pasteVpnInput) = .SAFE := by
  have h : totalRiskScore pasteVpnInput = 20 := by
    norm_num [totalRiskScore, computeRisk, pasteVpnInput, jitterPts,
      straightnessPts, hoverPts, ragePts, clickPts, scrollVelPts,
      scrollRhythmPts, idlePts, interKeyPts, dwellPts, backspacePts,
      consistencyPts, pastePts, ipDistancePts, vpnPts, timezonePts,
      devicePts, latencyPts, tabPts]
  refine ⟨h, by rw [h]; norm_num, by rw [h]; decide⟩

/-- C8 (amended): for every session whose feature vector has the paste
flag and the VPN flag set and all other monitored features inside their
zero-contribution ranges, the score includes the fixed 10-point paste
contribution plus the fixed 10-point VPN contribution and equals
exactly 20 — which stays in the SAFE/ALLOW band (< 30) rather than
reaching SOFT_CHALLENGE. -/
theorem paste_vpn_normal_score (d : ScoreInput)
    (hp : d.copyPasteDetected = true) (hv : d.vpnDetected = true)
    (h1 : d.mouseJitter ≤ 25) (h2 : d.pathStraightness ≤ 13/20)
    (h3 : 150 ≤ d.hoverDelay) (h4 : d.rageHover ≤ 3)
    (h5 : 70 ≤ d.clickDuration)
    (h6 : 200 ≤ d.scrollVelocity) (h6' : d.scrollVelocity ≤ 4000)
    (h7 : d.scrollRhythm ≤ 9/10) (h8 : 200 ≤ d.mouseIdleTime)
    (h9 : 80 ≤ d.interKeyDelay)
    (h10 : 20 ≤ d.dwellTime) (h10' : d.dwellTime ≤ 250)
    (h11 : 0 < d.backspaceRatio) (h11' : d.backspaceRatio ≤ 20)
    (h12 : 1/10 ≤ d.typingConsistency) (h13 : d.ipDistance ≤ 100)
    (h14 : d.timezoneMismatch ≤ 3) (h15 : d.deviceChanges ≤ 5)
    (h16 : d.latencyConsistency ≤ 19/20) (h17 : d.tabSwitches ≤ 10) :
    pastePts d.copyPasteDetected = 10 ∧ vpnPts d.vpnDetected = 10 ∧
    computeRisk d = 20 ∧ totalRiskScore d = 20 ∧
    riskLevel (totalRiskScore d) = .SAFE := by
  have hrisk : computeRisk d = 20 := by
    unfold computeRisk
    rw [jitterPts_zero h1, straightnessPts_zero h2, hoverPts_zero h3,
      ragePts_zero h4, clickPts_zero h5, scrollVelPts_zero h6 h6',
      scrollRhythmPts_zero h7, idlePts_zero h8, interKeyPts_zero h9,
      dwellPts_zero h10 h10', backspacePts_zero h11 h11',
      consistencyPts_zero h12, ipDistancePts_zero h13, timezonePts_zero h14,
      devicePts_zero h15, latencyPts_zero h16, tabPts_zero h17, hp, hv]
    norm_num [pastePts, vpnPts]
  have htot : totalRiskScore d = 20 := by
    unfold totalRiskScore
    rw [hrisk]
    norm_num
  refine ⟨by rw [hp]; rfl, by rw [hv]; rfl, hrisk, htot, ?_⟩
  rw [htot]
  decide

/-- Witness for C8 (amended) at the concrete input `pasteVpnInput`. -/
theorem paste_vpn_normal_score_witness :
    pasteVpnInput.copyPasteDetected = true ∧ pasteVpnInput.vpnDetected = true ∧
    computeRisk pasteVpnInput = 20 ∧ riskLevel (totalRiskScore pasteVpnInput) = .SAFE := by
  have h := paste_vpn_normal_score pasteVpnInput rfl rfl
    (by norm_num [pasteVpnInput]) (by norm_num [pasteVpnInput])
    (by norm_num [pasteVpnInput]) (by norm_num [pasteVpnInput])
    (by norm_num [pasteVpnInput]) (by norm_num [pasteVpnInput])
    (by norm_num [pasteVpnInput]) (by norm_num [pasteVpnInput])
    (by norm_num [pasteVpnInput]) (by norm_num [pasteVpnInput])
    (by norm_num [pasteVpnInput]) (by norm_num [pasteVpnInput])
    (by norm_num [pasteVpnInput]) (by norm_num [pasteVpnInput])
    (by norm_num [pasteVpnInput]) (by norm_num [pasteVpnInput])
    (by norm_num [pasteVpnInput]) (by norm_num [pasteVpnInput])
    (by norm_num [pasteVpnInput]) (by norm_num [pasteVpnInput])
  exact ⟨rfl, rfl, h.2.2.1, h.2.2.2.2⟩

/-- Counterexample to C9 as stated: after `startTracking` and one
recorded keystroke, a second `startTracking` call is not a no-op — it
erases the already-recorded pattern (`this.keystrokePattern = []` runs
unconditionally in `part_000:76-79`). -/
theorem startTracking_twice_clears_pattern :
    (trackKeystroke (startTracking ⟨false, []⟩) ks0).keystrokePattern = [ks0] ∧
    (startTracking (trackKeystroke (startTracking ⟨false, []⟩) ks0)).keystrokePattern = [] ∧
    (startTracking (trackKeystroke (startTracking ⟨false, []⟩) ks0)).keystrokePattern ≠
      (trackKeystroke (startTracking ⟨false, []⟩) ks0).keystrokePattern := by
  refine ⟨rfl, rfl, by decide⟩

/-- C9 (amended): calling `startTracking` while a session is already
active never creates a second concurrent session — the tracker still
holds exactly one buffer and stays in the tracking state — but the call
is not a no-op: it resets the buffer, discarding the events recorded so
far. -/
theorem startTracking_twice_single_session (s : TrackerState)
    (_h : s.isTracking = true) :
    (startTracking s).isTracking = true ∧
    (startTracking s).keystrokePattern = [] := ⟨rfl, rfl⟩

/-- Witness for C9 (amended) at a concrete active tracker state. -/
theorem startTracking_twice_single_session_witness :
    (TrackerState.mk true [ks0]).isTracking = true ∧
    ((startTracking (TrackerState.mk true [ks0])).isTracking = true ∧
     (startTracking (TrackerState.mk true [ks0])).keystrokePattern = []) :=
  ⟨rfl, startTracking_twice_single_session (TrackerState.mk true [ks0]) rfl⟩

/-- Length of the consecutive-difference list built by `saveBaseline`. -/
lemma intervalsOf_length : ∀ l : List ℚ, (intervalsOf l).length = l.length - 1
  | [] => rfl
  | [_] => rfl
  | a :: b :: rest => by
      simpa [intervalsOf] using intervalsOf_length (b :: rest)

/-- C10: `saveBaseline` (`Onboarding.tsx:47-81`) invoked with fewer than
2 recorded keystrokes returns immediately without effect — storage is
unchanged and `onComplete` is not invoked — and with at least 2
keystrokes the interval list over which the mean is taken is nonempty,
so the division in `avgSpeed`/`variance` never has a zero denominator. -/
theorem saveBaseline_requires_two_keystrokes (sqrt : ℚ → ℚ)
    (pattern : List OnboardKeystroke) (uid : String) (store : BaselineStorage) :
    (pattern.length < 2 → saveBaseline sqrt pattern uid store = (store, false)) ∧
    (2 ≤ pattern.length →
      0 < (intervalsOf (pattern.map (·.timestamp))).length ∧
      (saveBaseline sqrt pattern uid store).2 = true ∧
      ((saveBaseline sqrt pattern uid store).1).behavioralBaseline.isSome = true) := by
  constructor
  · intro h
    unfold saveBaseline
    rw [if_pos h]
  · intro h
    have hlen : (intervalsOf (pattern.map (·.timestamp))).length =
        pattern.length - 1 := by
      rw [intervalsOf_length, List.length_map]
    refine ⟨by omega, ?_, ?_⟩ <;>
      · unfold saveBaseline
        rw [if_neg (by omega)]
        try rfl

/-- Witness for C10: a one-keystroke pattern is rejected without
touching storage, and a two-keystroke pattern yields a nonempty
interval list and a stored baseline. -/
theorem saveBaseline_requires_two_keystrokes_witness :
    saveBaseline (fun q => q) [ok1] "user_1" emptyStore = (emptyStore, false) ∧
    (0 < (intervalsOf ([ok1, ok2].map (·.timestamp))).length ∧
     (saveBaseline (fun q => q) [ok1, ok2] "user_1" emptyStore).2 = true ∧
     ((saveBaseline (fun q => q) [ok1, ok2] "user_1" emptyStore).1).behavioralBaseline.isSome = true) :=
  ⟨(saveBaseline_requires_two_keystrokes (fun q => q) [ok1] "user_1" emptyStore).1 (by decide),
   (saveBaseline_requires_two_keystrokes (fun q => q) [ok1, ok2] "user_1" emptyStore).2 (by decide)⟩

/-- Counterexample to C5 as stated: `std` on the single-element list
`[5]` returns `some 0`, not `null` — the guard in `SignUpPage.jsx:13`
only checks for an empty array, so one sample yields variance 0 and
`Math.sqrt(0) = 0`.  The instantiation `fun q => q` agrees with
`Math.sqrt` at 0, the only point where it is evaluated here. -/
theorem std_singleton_not_null :
    std (fun q => q) [(5 : ℚ)] = some 0 ∧ std (fun q => q) [(5 : ℚ)] ≠ none := by
  constructor
  · unfold std avg
    norm_num
  · intro h
    rw [std, if_neg (by norm_num)] at h
    exact Option.some_ne_none _ h

/-- C5 (amended): for every model of `Math.sqrt` that sends 0 to 0, the
mean of an empty sample list is `null` and so is the standard deviation
of an empty list; but the standard deviation of a single-element list
is 0 (not `null`, and not an error halt) because the guard in `std`
only checks emptiness. -/
theorem avg_std_small_samples (sqrt : ℚ → ℚ) (h0 : sqrt 0 = 0) :
    avg ([] : List ℚ) = none ∧ std sqrt [] = none ∧
    ∀ x : ℚ, std sqrt [x] = some 0 := by
  refine ⟨rfl, rfl, fun x => ?_⟩
  unfold std avg
  norm_num [h0]

/-- Witness for C5 (amended) with the identity as the `Math.sqrt` model
(it agrees with `Math.sqrt` at the only evaluated point, 0) and the
sample list `[7]`. -/
theorem avg_std_small_samples_witness :
    (fun q : ℚ => q) 0 = 0 ∧ std (fun q : ℚ => q) [(7 : ℚ)] = some 0 :=
  ⟨rfl, (avg_std_small_samples (fun q => q) rfl).2.2 7⟩

/-- Counterexample to C3 as stated: two `collectMHacksData` calls on the
very same frozen session state (and even the same clock value) differ
in the `session_id` field, because the source draws a fresh
`crypto.randomUUID()` on every call (`SignUpPage.jsx:143`) — the output
is not bit-identical and the differing field does not depend on
wall-clock time. -/
theorem collectMHacksData_session_id_fresh :
    (collectMHacksData (fun q => q) (initialTrackingState 0 0) dev0 100 0 "uuid-a").session_id ≠
    (collectMHacksData (fun q => q) (initialTrackingState 0 0) dev0 100 0 "uuid-b").session_id := by
  decide

/-- C3 (amended): `collectMHacksData` is a pure function of the frozen
session state, the device attributes, the clock reading and the drawn
UUID; for a fixed session and device, every output field other than
`session_id` (fresh UUID per call) and the duration-derived
`typing_speed_cpm`, `form_completion_time_ms` and `idle_time_percentage`
(which explicitly depend on wall-clock now) is identical across calls. -/
theorem collectMHacksData_deterministic_fields (sqrt : ℚ → ℚ)
    (st : TrackingState) (dev : DeviceInfo) (pl now₁ now₂ : ℚ) (u₁ u₂ : String) :
    (collectMHacksData sqrt st dev now₁ pl u₁).user_agent =
      (collectMHacksData sqrt st dev now₂ pl u₂).user_agent ∧
    (collectMHacksData sqrt st dev now₁ pl u₁).dwell_time_mean_ms =
      (collectMHacksData sqrt st dev now₂ pl u₂).dwell_time_mean_ms ∧
    (collectMHacksData sqrt st dev now₁ pl u₁).dwell_time_std_ms =
      (collectMHacksData sqrt st dev now₂ pl u₂).dwell_time_std_ms ∧
    (collectMHacksData sqrt st dev now₁ pl u₁).flight_time_mean_ms =
      (collectMHacksData sqrt st dev now₂ pl u₂).flight_time_mean_ms ∧
    (collectMHacksData sqrt st dev now₁ pl u₁).backspace_rate =
      (collectMHacksData sqrt st dev now₂ pl u₂).backspace_rate ∧
    (collectMHacksData sqrt st dev now₁ pl u₁).copy_paste_used =
      (collectMHacksData sqrt st dev now₂ pl u₂).copy_paste_used ∧
    (collectMHacksData sqrt st dev now₁ pl u₁).avg_velocity_px_ms =
      (collectMHacksData sqrt st dev now₂ pl u₂).avg_velocity_px_ms ∧
    (collectMHacksData sqrt st dev now₁ pl u₁).path_curvature_ratio =
      (collectMHacksData sqrt st dev now₂ pl u₂).path_curvature_ratio ∧
    (collectMHacksData sqrt st dev now₁ pl u₁).click_precision_px =
      (collectMHacksData sqrt st dev now₂ pl u₂).click_precision_px ∧
    (collectMHacksData sqrt st dev now₁ pl u₁).micro_corrections_per_movement =
      (collectMHacksData sqrt st dev now₂ pl u₂).micro_corrections_per_movement ∧
    (collectMHacksData sqrt st dev now₁ pl u₁).total_distance_px =
      (collectMHacksData sqrt st dev now₂ pl u₂).total_distance_px ∧
    (collectMHacksData sqrt st dev now₁ pl u₁).mouse_idle_time_ms =
      (collectMHacksData sqrt st dev now₂ pl u₂).mouse_idle_time_ms ∧
    (collectMHacksData sqrt st dev now₁ pl u₁).scroll_velocity_px_s =
      (collectMHacksData sqrt st dev now₂ pl u₂).scroll_velocity_px_s ∧
    (collectMHacksData sqrt st dev now₁ pl u₁).fingerprint_hash =
      (collectMHacksData sqrt st dev now₂ pl u₂).fingerprint_hash ∧
    (collectMHacksData sqrt st dev now₁ pl u₁).device_browser_id =
      (collectMHacksData sqrt st dev now₂ pl u₂).device_browser_id ∧
    (collectMHacksData sqrt st dev now₁ pl u₁).device_os =
      (collectMHacksData sqrt st dev now₂ pl u₂).device_os ∧
    (collectMHacksData sqrt st dev now₁ pl u₁).screen_resolution =
      (collectMHacksData sqrt st dev now₂ pl u₂).screen_resolution ∧
    (collectMHacksData sqrt st dev now₁ pl u₁).timezone =
      (collectMHacksData sqrt st dev now₂ pl u₂).timezone ∧
    (collectMHacksData sqrt st dev now₁ pl u₁).gpu =
      (collectMHacksData sqrt st dev now₂ pl u₂).gpu ∧
    (collectMHacksData sqrt st dev now₁ pl u₁).time_to_first_interaction_ms =
      (collectMHacksData sqrt st dev now₂ pl u₂).time_to_first_interaction_ms :=
  ⟨rfl, rfl, rfl, rfl, rfl, rfl, rfl, rfl, rfl, rfl,
   rfl, rfl, rfl, rfl, rfl, rfl, rfl, rfl, rfl, rfl⟩

/-- Counterexample to C4 as stated: on a session with zero interaction
events the feature `typing_speed_cpm` is `0`, not `null` —
`typingSpeed(0, duration)` divides 0 keystrokes by the clamped
duration, so the claim that every sample-derived feature of an empty
session is null fails. -/
theorem collectMHacksData_empty_typing_speed_zero :
    (collectMHacksData (fun q => q) (initialTrackingState 0 0) dev0 60000 0 "s").typing_speed_cpm
      = some 0 ∧
    (collectMHacksData (fun q => q) (initialTrackingState 0 0) dev0 60000 0 "s").typing_speed_cpm
      ≠ none := by
  constructor
  · show some (typingSpeed 0 (60000 - 0)) = some 0
    norm_num [typingSpeed]
  · show some (typingSpeed 0 (60000 - 0)) ≠ none
    exact Option.some_ne_none _

/-- C4 (amended): for every session with zero interaction events the
extracted record has null dwell-time mean and standard deviation, null
flight-time mean, null mouse-velocity mean, null curvature ratio, null
time-to-first-interaction, a false copy/paste flag — but the features
`typing_speed_cpm`, `backspace_rate` and `scroll_velocity_px_s` are 0
rather than null (the last because JavaScript coerces `null * 1000` to
`0`), and the count/total features are 0. -/
theorem collectMHacksData_empty_session_features (sqrt : ℚ → ℚ)
    (dev : DeviceInfo) (t0 sy now pl : ℚ) (u : String) :
    (collectMHacksData sqrt (initialTrackingState t0 sy) dev now pl u).dwell_time_mean_ms = none ∧
    (collectMHacksData sqrt (initialTrackingState t0 sy) dev now pl u).dwell_time_std_ms = none ∧
    (collectMHacksData sqrt (initialTrackingState t0 sy) dev now pl u).flight_time_mean_ms = none ∧
    (collectMHacksData sqrt (initialTrackingState t0 sy) dev now pl u).avg_velocity_px_ms = none ∧
    (collectMHacksData sqrt (initialTrackingState t0 sy) dev now pl u).path_curvature_ratio = none ∧
    (collectMHacksData sqrt (initialTrackingState t0 sy) dev now pl u).time_to_first_interaction_ms = none ∧
    (collectMHacksData sqrt (initialTrackingState t0 sy) dev now pl u).copy_paste_used = false ∧
    (collectMHacksData sqrt (initialTrackingState t0 sy) dev now pl u).typing_speed_cpm = some 0 ∧
    (collectMHacksData sqrt (initialTrackingState t0 sy) dev now pl u).backspace_rate = some 0 ∧
    (collectMHacksData sqrt (initialTrackingState t0 sy) dev now pl u).scroll_velocity_px_s = some 0 ∧
    (collectMHacksData sqrt (initialTrackingState t0 sy) dev now pl u).micro_corrections_per_movement = 0 ∧
    (collectMHacksData sqrt (initialTrackingState t0 sy) dev now pl u).total_distance_px = 0 ∧
    (collectMHacksData sqrt (initialTrackingState t0 sy) dev now pl u).mouse_idle_time_ms = 0 := by
  refine ⟨rfl, rfl, rfl, rfl, rfl, rfl, rfl, ?_, ?_, ?_, rfl, rfl, rfl⟩
  · show some (typingSpeed 0 (now - pl)) = some 0
    norm_num [typingSpeed]
  · show some ((0 : ℚ) / max ((0 : ℕ) : ℚ) 1) = some 0
    norm_num
  · show some ((avg []).getD 0 * 1000) = some 0
    norm_num [avg]

/-! ## Helper lemmas for the mouse-path metrics -/

lemma sqDist_nonneg (p q : Pos) : 0 ≤ sqDist p q := by
  unfold sqDist
  have h1 := mul_self_nonneg (q.x - p.x)
  have h2 := mul_self_nonneg (q.y - p.y)
  linarith

lemma sqDist_self (p : Pos) : sqDist p p = 0 := by
  unfold sqDist; ring

lemma sqDist_eq_zero {p q : Pos} (h : sqDist p q = 0) : p = q := by
  unfold sqDist at h
  have hx : (q.x - p.x) * (q.x - p.x) = 0 := by
    nlinarith [mul_self_nonneg (q.x - p.x), mul_self_nonneg (q.y - p.y)]
  have hy : (q.y - p.y) * (q.y - p.y) = 0 := by
    nlinarith [mul_self_nonneg (q.x - p.x), mul_self_nonneg (q.y - p.y)]
  have hx' : q.x = p.x := by have := mul_self_eq_zero.mp hx; linarith
  have hy' : q.y = p.y := by have := mul_self_eq_zero.mp hy; linarith
  cases p; cases q; simp_all

lemma segDists_nonneg (sqrt : ℚ → ℚ) (hnn : ∀ q, 0 ≤ q → 0 ≤ sqrt q) :
    ∀ l : List Pos, ∀ d ∈ segDists sqrt l, 0 ≤ d
  | [], _, hd => by simp [segDists] at hd
  | [_], _, hd => by simp [segDists] at hd
  | p :: q :: rest, d, hd => by
      rw [segDists] at hd
      rcases List.mem_cons.mp hd with h | h
      · subst h; exact hnn _ (sqDist_nonneg p q)
      · exact segDists_nonneg sqrt hnn (q :: rest) d h

lemma totalDistance_nonneg (sqrt : ℚ → ℚ) (hnn : ∀ q, 0 ≤ q → 0 ≤ sqrt q)
    (l : List Pos) : 0 ≤ totalDistance sqrt l :=
  List.sum_nonneg (segDists_nonneg sqrt hnn l)

lemma totalDistance_cons₂ (sqrt : ℚ → ℚ) (p q : Pos) (rest : List Pos) :
    totalDistance sqrt (p :: q :: rest) =
      sqrt (sqDist p q) + totalDistance sqrt (q :: rest) := by
  simp [totalDistance, segDists]

lemma getLastD_cons_irrel : ∀ (b : Pos) (rest : List Pos) (d₁ d₂ : Pos),
    (b :: rest).getLastD d₁ = (b :: rest).getLastD d₂
  | _, [], _, _ => rfl
  | _, _ :: _, _, _ => rfl

lemma totalDistance_pos (sqrt : ℚ → ℚ) (h0 : sqrt 0 = 0)
    (hpos : ∀ q, 0 < q → 0 < sqrt q) (hnn : ∀ q, 0 ≤ q → 0 ≤ sqrt q) :
    ∀ (a : Pos) (l : List Pos), a ≠ l.getLastD a → 0 < totalDistance sqrt (a :: l)
  | _, [], h => absurd rfl h
  | a, b :: rest, h => by
      rw [totalDistance_cons₂]
      by_cases hab : a = b
      · subst hab
        have h' : a ≠ rest.getLastD a := by
          rwa [List.getLastD_cons] at h
        have hrest := totalDistance_pos sqrt h0 hpos hnn a rest h'
        rw [sqDist_self, h0]
        linarith
      · have hsq : 0 < sqDist a b :=
          lt_of_le_of_ne (sqDist_nonneg a b) fun he => hab (sqDist_eq_zero he.symm)
        have h1 := hpos _ hsq
        have h2 := totalDistance_nonneg sqrt hnn (b :: rest)
        linarith

lemma straightLineDistance_nonneg (sqrt : ℚ → ℚ)
    (hnn : ∀ q, 0 ≤ q → 0 ≤ sqrt q) :
    ∀ l : List Pos, 0 ≤ straightLineDistance sqrt l
  | [] => le_refl 0
  | [_] => le_refl 0
  | _ :: _ :: _ => hnn _ (sqDist_nonneg _ _)

/-! ## Helper lemmas for the idle-time accumulator -/

lemma handleKeyDown_idle (st : TrackingState) (key : String) (t : ℚ) :
    (handleKeyDown st key t).idleTimeTotal = st.idleTimeTotal := by
  cases h : truthy st.firstInteractionTime <;> simp [handleKeyDown, h]

lemma handleKeyUp_idle (st : TrackingState) (key : String) (t : ℚ) :
    (handleKeyUp st key t).idleTimeTotal = st.idleTimeTotal := by
  cases h : truthy (assocGet st.keyDownTimes key) <;> simp [handleKeyUp, h]

lemma handleMouseMove_idle (sqrt : ℚ → ℚ) (st : TrackingState) (x y t : ℚ) :
    (handleMouseMove sqrt st x y t).idleTimeTotal = st.idleTimeTotal := by
  obtain ⟨kdt, dw, ft, lkd, bc, tk, cp, lmp, lmt, tmd, mc, mv, cs, lst, lsy, sv, fit, lev, itt⟩ := st
  cases lmp <;> cases h : truthy fit <;> simp [handleMouseMove, h]

lemma handleScroll_idle (st : TrackingState) (scrollY t : ℚ) :
    (handleScroll st scrollY t).idleTimeTotal = st.idleTimeTotal := by
  simp [handleScroll]

lemma stepEvent_idle (sqrt : ℚ → ℚ) (st : TrackingState) (e : Event) :
    (stepEvent sqrt st e).idleTimeTotal = st.idleTimeTotal := by
  cases e with
  | keyDown key t => exact handleKeyDown_idle st key t
  | keyUp key t => exact handleKeyUp_idle st key t
  | paste => rfl
  | copy => rfl
  | mouseMove x y t => exact handleMouseMove_idle sqrt st x y t
  | scroll sY t => exact handleScroll_idle st sY t

lemma processEvents_idle (sqrt : ℚ → ℚ) :
    ∀ (evs : List Event) (st : TrackingState),
      (processEvents sqrt st evs).idleTimeTotal = st.idleTimeTotal
  | [], _ => rfl
  | e :: evs, st => by
      show (processEvents sqrt (stepEvent sqrt st e) evs).idleTimeTotal = st.idleTimeTotal
      rw [processEvents_idle sqrt evs (stepEvent sqrt st e), stepEvent_idle]

/-- Counterexample to C6 as stated: a session consisting of a single
PointerMove event yields `path_curvature_ratio = null`, not 0 — the
`curvatureRatio` helper of `SignUpPage.jsx:19-23` returns `null` on an
empty sample list, and one move produces no sample (the handler only
pushes a sample when a previous position exists). -/
theorem path_curvature_single_move_null :
    (collectMHacksData (fun q => q) (processEvents (fun q => q)
        (initialTrackingState 0 0) [Event.mouseMove 5 5 10])
        dev0 100 0 "s").path_curvature_ratio = none ∧
    (collectMHacksData (fun q => q) (processEvents (fun q => q)
        (initialTrackingState 0 0) [Event.mouseMove 5 5 10])
        dev0 100 0 "s").path_curvature_ratio ≠ some 0 := by
  refine ⟨rfl, ?_⟩
  intro h
  rw [show (collectMHacksData (fun q => q) (processEvents (fun q => q)
      (initialTrackingState 0 0) [Event.mouseMove 5 5 10])
      dev0 100 0 "s").path_curvature_ratio = none from rfl] at h
  exact Option.noConfusion h

/-- C6 (amended): the `pathStraightness` feature of `analyzeBehavior`
(`useBehavioralTracking.js:111-138`) equals the straight-line Euclidean
distance between the first and last mouse samples divided by the total
path length whenever the straight-line distance is positive, and 0
otherwise — equivalently, for any model of `Math.sqrt` that is zero at
zero, positive on positives and nonnegative on nonnegatives, it equals
the claimed ratio with the division guarded to 0 when the total path
length is 0; in particular a single-sample path yields 0.  The
`path_curvature_ratio` feature of `SignUpPage.jsx` is a different
statistic (mean of per-segment Euclidean/Manhattan ratios) and is
`null`, not 0, for a session with a single PointerMove event. -/
theorem pathStraightness_ratio_spec (sqrt : ℚ → ℚ) (h0 : sqrt 0 = 0)
    (hpos : ∀ q, 0 < q → 0 < sqrt q) (hnn : ∀ q, 0 ≤ q → 0 ≤ sqrt q) :
    (∀ moves : List Pos,
      pathStraightness sqrt moves =
        if totalDistance sqrt moves = 0 then 0
        else straightLineDistance sqrt moves / totalDistance sqrt moves) ∧
    (∀ p : Pos, pathStraightness sqrt [p] = 0) ∧
    pathStraightness sqrt [] = 0 ∧
    (∀ (x y t t0 sy now pl : ℚ) (dev : DeviceInfo) (u : String),
      (collectMHacksData sqrt (processEvents sqrt (initialTrackingState t0 sy)
          [Event.mouseMove x y t]) dev now pl u).path_curvature_ratio = none) := by
  refine ⟨fun moves => ?_, fun p => rfl, rfl, fun x y t t0 sy now pl dev u => rfl⟩
  by_cases hs : straightLineDistance sqrt moves > 0
  · match moves with
    | [] => exact absurd hs (lt_irrefl 0)
    | [p] => exact absurd hs (lt_irrefl 0)
    | a :: b :: rest =>
      have hD : sqDist a ((b :: rest).getLastD b) ≠ 0 := by
        intro hz
        have hzero : straightLineDistance sqrt (a :: b :: rest) = 0 := by
          rw [straightLineDistance, hz, h0]
        rw [hzero] at hs
        exact lt_irrefl 0 hs
      have hane : a ≠ (b :: rest).getLastD b := by
        intro he
        exact hD (by rw [he]; exact sqDist_self _)
      have hane' : a ≠ (b :: rest).getLastD a := by
        rw [getLastD_cons_irrel b rest a b]
        exact hane
      have hT : 0 < totalDistance sqrt (a :: b :: rest) :=
        totalDistance_pos sqrt h0 hpos hnn a (b :: rest) hane'
      unfold pathStraightness
      rw [if_pos hs, if_neg (ne_of_gt hT)]
  · have hs0 : straightLineDistance sqrt moves = 0 :=
      le_antisymm (not_lt.mp hs) (straightLineDistance_nonneg sqrt hnn moves)
    unfold pathStraightness
    by_cases ht : totalDistance sqrt moves = 0
    · rw [if_neg hs, if_pos ht]
    · rw [if_neg hs, if_neg ht, hs0, zero_div]

/-- Witness for C6 (amended): the identity function satisfies the three
`Math.sqrt` hypotheses, and on the two-sample path (0,0) → (3,4) the
ratio equation holds concretely. -/
theorem pathStraightness_ratio_spec_witness :
    ((fun q : ℚ => q) 0 = 0) ∧
    pathStraightness (fun q : ℚ => q) [Pos.mk 0 0, Pos.mk 3 4] =
      (if totalDistance (fun q : ℚ => q) [Pos.mk 0 0, Pos.mk 3 4] = 0 then 0
       else straightLineDistance (fun q : ℚ => q) [Pos.mk 0 0, Pos.mk 3 4] /
         totalDistance (fun q : ℚ => q) [Pos.mk 0 0, Pos.mk 3 4]) :=
  ⟨rfl, (pathStraightness_ratio_spec (fun q => q) rfl (fun _ h => h)
    (fun _ h => h)).1 [Pos.mk 0 0, Pos.mk 3 4]⟩

/-- C7: the code contradicts the claimed idle-time semantics: the
accumulator `idleTimeTotal` is never incremented by any registered
event handler — `detectIdle` (`SignUpPage.jsx:393-399`), the only
function that adds to it, is never attached to a listener or timer — so
the extracted `mouse_idle_time_ms` is 0 for every session, including
one whose events are 3000 ms apart (where the claimed sum of
over-2000 ms gaps is 3000, as `detectIdle` itself would compute). -/
theorem idleTimeTotal_stays_zero :
    (∀ (sqrt : ℚ → ℚ) (t0 sy : ℚ) (evs : List Event),
      (processEvents sqrt (initialTrackingState t0 sy) evs).idleTimeTotal = 0) ∧
    (collectMHacksData (fun q => q) (processEvents (fun q => q)
        (initialTrackingState 0 0) [Event.keyDown "a" 0, Event.keyDown "b" 3000])
        dev0 4000 0 "s").mouse_idle_time_ms = 0 ∧
    (detectIdle (initialTrackingState 0 0) 3000).idleTimeTotal = 3000 := by
  refine ⟨fun sqrt t0 sy evs => ?_, ?_, ?_⟩
  · rw [processEvents_idle]; rfl
  · show (processEvents (fun q => q) (initialTrackingState 0 0)
        [Event.keyDown "a" 0, Event.keyDown "b" 3000]).idleTimeTotal = 0
    rw [processEvents_idle]; rfl
  · norm_num [detectIdle, initialTrackingState]

end Reimagine
